import Mathlib

/-!
Verification of the TSC (SMC) scripting/audio slice: the event-dispatch
verdict aggregation, the mruby `AudioClass` binding (`mrb_audio.cpp`), and
the event-name / level-save-event contracts.

Source-backed definitions are shallow embeddings of the code in `src/`.
Where the body that decides a behaviour is in a repository file that is not
part of `src/` (only its header, documentation comment or caller is), the
definition is marked `Modelled from the spec:` and follows the spec's words.
-/

namespace TSC

/-! ## mruby value model

The embedded interpreter (mruby) is an external collaborator; the binding
code in `mrb_audio.cpp` manipulates `mrb_value`s only through
`mrb_true_value()`, `mrb_false_value()` and `mrb_test`.  We model the value
universe with the variants those operations distinguish. -/

inductive MRubyValue
  | nil_
  | false_
  | true_
  | fixnum (n : Int)
  | str (s : String)
deriving DecidableEq, Repr

/-- `mrb_test` from mruby: everything is truthy except `false` and `nil`.
This is the semantics of the `mrb_test(force)` call at
`mrb_audio.cpp:163`. -/
def mrb_test : MRubyValue → Bool
  | .nil_ => false
  | .false_ => false
  | _ => true

/-- Script-level errors raised through `mrb_raise`. -/
inductive ScriptError
  | notImplemented (msg : String)
deriving DecidableEq, Repr

/-! ## Audio channel state

`mrb_audio.cpp` forwards to `pAudio->Play_Sound` / `pAudio->Play_Music`,
whose bodies live in `src/audio/audio.cpp`, not part of the provided
sources.  The channel-arbitration state below is modelled from the spec
(§3 Playback Channel, §4.4 Resource-Arbitrated Playback) and from the
documentation comments in `mrb_audio.cpp` (lines 77-98 and 138-142). -/

structure SoundChannel where
  filename : String
  resource_id : Int
  volume : Int
  loops : Int
  handle : Nat
deriving DecidableEq, Repr

structure MusicChannel where
  filename : String
  loops : Int
  fadein_ms : Int
  handle : Nat
deriving DecidableEq, Repr

/-- The audio subsystem state: which files resolve to playable data and
whether output is enabled (spec §4.4 failure conditions), the active sound
channels, the single optional music channel (spec §3 invariant), and a
fresh-handle counter standing for backend channel handles. -/
structure AudioState where
  sound_enabled : Bool
  music_enabled : Bool
  sound_files : String → Bool
  music_files : String → Bool
  sounds : List SoundChannel
  music : Option MusicChannel
  nextHandle : Nat

/-- Modelled from the spec: the body of `cAudio::Play_Sound` (called at
`mrb_audio.cpp:115`) is in `src/audio/audio.cpp`, which is not among the
provided sources.  Spec §4.4: if `resource_id` is set (not the sentinel -1)
and a channel with the same id is active, that channel is stopped and
discarded before the new sound starts; if unset, the sound starts
unconditionally; the call returns false without side effects if the
filename cannot be resolved or sound output is disabled. -/
def Play_Sound (st : AudioState) (filename : String)
    (res_id volume loops : Int) : Bool × AudioState :=
  if st.sound_enabled && st.sound_files filename then
    let kept :=
      if res_id == -1 then st.sounds
      else st.sounds.filter (fun c => !(c.resource_id == res_id))
    (true,
      { st with
          sounds := ⟨filename, res_id, volume, loops, st.nextHandle⟩ :: kept
          nextHandle := st.nextHandle + 1 })
  else
    (false, st)

/-- Modelled from the spec: the body of `cAudio::Play_Music` (called at
`mrb_audio.cpp:163`) is in `src/audio/audio.cpp`, which is not among the
provided sources.  Spec §4.4: if `force` is true and a music channel is
active, it is stopped and discarded before the new music starts; if
`force` is false and a channel is active, the call is a no-op returning
false; the call returns false without side effects if the filename cannot
be resolved or music is disabled. -/
def Play_Music (st : AudioState) (filename : String)
    (loops : Int) (force : Bool) (fadein_ms : Int) : Bool × AudioState :=
  if st.music_enabled && st.music_files filename then
    match st.music with
    | some _ =>
        if force then
          (true,
            { st with
                music := some ⟨filename, loops, fadein_ms, st.nextHandle⟩
                nextHandle := st.nextHandle + 1 })
        else
          (false, st)
    | none =>
        (true,
          { st with
              music := some ⟨filename, loops, fadein_ms, st.nextHandle⟩
              nextHandle := st.nextHandle + 1 })
  else
    (false, st)

/-! ## The mruby binding wrappers (`mrb_audio.cpp`)

`mrb_get_args(p_state, "z|iii", ...)` leaves an optional argument's
variable at its initialised value when the script omits it; an omitted
argument is modelled as `none`. -/

/-- Shallow embedding of `Play_Sound` at `mrb_audio.cpp:107-119`: defaults
`volume = -1`, `loops = 0`, `resid = -1` (lines 110-112), then
`pAudio->Play_Sound(filename, resid, volume, loops)`, returning the mruby
true/false value. -/
def mrb_Play_Sound (st : AudioState) (filename : String)
    (oVolume oLoops oResid : Option Int) : MRubyValue × AudioState :=
  let volume := oVolume.getD (-1)
  let loops := oLoops.getD 0
  let resid := oResid.getD (-1)
  match Play_Sound st filename resid volume loops with
  | (true, st') => (.true_, st')
  | (false, st') => (.false_, st')

/-- Shallow embedding of `Play_Music` at `mrb_audio.cpp:154-167`: defaults
`loops = 0`, `force = mrb_true_value()`, `fadein_ms = 0` (lines 157-159),
then `pAudio->Play_Music(filename, loops, mrb_test(force), fadein_ms)`,
returning the mruby true/false value. -/
def mrb_Play_Music (st : AudioState) (filename : String)
    (oLoops : Option Int) (oForce : Option MRubyValue) (oFade : Option Int) :
    MRubyValue × AudioState :=
  let loops := oLoops.getD 0
  let force := oForce.getD .true_
  let fadein_ms := oFade.getD 0
  match Play_Music st filename loops (mrb_test force) fadein_ms with
  | (true, st') => (.true_, st')
  | (false, st') => (.false_, st')

/-- Shallow embedding of `Initialize` at `mrb_audio.cpp:51-55`: bound as
`AudioClass#initialize` at line 180; it unconditionally calls
`mrb_raise(p_state, MRB_NOTIMP_ERROR(p_state), "Cannot create instances of
this class.")`, so the call never returns a value. -/
def Initialize (self : MRubyValue) : Except ScriptError MRubyValue :=
  Except.error (ScriptError.notImplemented ("Cannot create instances of this class."))

/-! ## Event variants and names -/

/-- The event variants present in the provided sources: `cJump_Event`
(`jump_event.hpp`) and `cLevel_Save_Event` (`level_save_event.h`). -/
inductive EventVariant
  | jump
  | levelSave
deriving DecidableEq, Repr

/-- `Event_Name` per variant.  The `jump` case is `cJump_Event::Event_Name`
at `jump_event.hpp:13`, which returns the literal `"jump"`.  The
`levelSave` case is modelled from the spec: the body of
`cLevel_Save_Event::Event_Name` is in `level_save_event.cpp`, not among
the provided sources; spec §3 gives the stable identifier `"save"` for the
level-save event. -/
def Event_Name : EventVariant → String
  | .jump => "jump"
  | .levelSave => "save"

/-! ## The level-save event and its non-owning payload

`level_save_event.h` declares `cLevel_Save_Event(Lua_Save_Data* p_data)`,
`Get_Save_Data()` and the private member `mp_data`; the constructor body is
in `level_save_event.cpp`, not among the provided sources.  Pointers are
modelled as addresses (`Nat`), and the save subsystem's store as an
association list from address to payload, so that (non-)modification and
(non-)freeing are observable. -/

/-- A generic key/value save payload (spec §6: the core never inspects it). -/
def SaveHeap : Type := List (Nat × List (String × String))

/-- The event object: holds the borrowed pointer `mp_data`
(`level_save_event.h:18`). -/
structure cLevel_Save_Event where
  mp_data : Nat
deriving DecidableEq, Repr

/-- Modelled from the spec: the constructor body of `cLevel_Save_Event` is
in `level_save_event.cpp`, not among the provided sources; the header shows
it takes `Lua_Save_Data* p_data` and the spec (§3 Ownership, §9) says the
event stores a non-owning reference and does not touch the referenced
data.  The heap is threaded to make the absence of mutation explicit. -/
def mkLevelSaveEvent (p_data : Nat) (heap : SaveHeap) :
    cLevel_Save_Event × SaveHeap :=
  (⟨p_data⟩, heap)

/-- `Get_Save_Data` (`level_save_event.h:14`): returns the stored pointer. -/
def Get_Save_Data (e : cLevel_Save_Event) : Nat :=
  e.mp_data

/-- Modelled from the spec: `cLevel_Save_Event` has no user-declared
destructor in the header and the spec (§3) says the caller owns and later
destroys the payload, so destruction of the event leaves the heap
untouched. -/
def destroyLevelSaveEvent (e : cLevel_Save_Event) (heap : SaveHeap) : SaveHeap :=
  heap

/-! ## Dispatcher verdict aggregation

Modelled from the spec: the dispatcher (`cEvent::Fire` and the callback
registry) is not among the provided source files; spec §4.3 gives the
algorithm.  A handler invocation's observable outcome is continue,
suppress, or a raised script error (caught at the dispatch boundary and
treated as continue). -/

inductive HandlerResult
  | cont
  | suppress
  | err
deriving DecidableEq, Repr

structure Verdict where
  ran : Bool
  suppress_default : Bool
deriving DecidableEq, Repr

/-- One step of the dispatch loop: a handler that returned the suppress
value sets the flag; continue and caught script errors leave it as is
(spec §4.3). -/
def fireStep (acc : Bool) (h : HandlerResult) : Bool :=
  match h with
  | .suppress => true
  | .cont => acc
  | .err => acc

/-- Modelled from the spec: `Fire` over a snapshot of handler outcomes
(spec §4.3): an empty snapshot yields `{ran := false, suppress_default :=
false}`; otherwise every handler is invoked in order and the verdict's
`suppress_default` accumulates whether any handler returned suppress. -/
def Fire (snapshot : List HandlerResult) : Verdict :=
  match snapshot with
  | [] => ⟨false, false⟩
  | _ :: _ => ⟨true, snapshot.foldl fireStep false⟩

/-! ## Call sequences for the channel invariant -/

/-- One scripted `play_sound` request. -/
structure SoundCall where
  filename : String
  volume : Int
  loops : Int
  resid : Int
deriving DecidableEq, Repr

/-- Run a sequence of `Play_Sound` calls, threading state. -/
def runSoundCalls (st : AudioState) (calls : List SoundCall) : AudioState :=
  calls.foldl (fun s c => (Play_Sound s c.filename c.resid c.volume c.loops).2) st

/-- The per-id channel-count invariant (spec §3): at most one active sound
channel per distinct non-sentinel `resource_id`, and every active channel's
backend handle is older than the fresh-handle counter. -/
def audioInv (st : AudioState) : Prop :=
  (∀ rid : Int, rid ≠ -1 →
      st.sounds.countP (fun c => c.resource_id == rid) ≤ 1)
  ∧ (∀ c ∈ st.sounds, c.handle < st.nextHandle)

/-- A concrete everything-available audio state for witnesses. -/
def initAudio : AudioState :=
  ⟨true, true, fun _ => true, fun _ => true, [], none, 0⟩

/-! ## Helper lemmas -/

theorem foldl_fireStep (s : List HandlerResult) (acc : Bool) :
    s.foldl fireStep acc = (acc || decide (HandlerResult.suppress ∈ s)) := by
  induction s generalizing acc with
  | nil => simp
  | cons h t ih =>
    cases h <;> simp [List.foldl_cons, fireStep, ih, List.mem_cons]

theorem play_sound_preserves_inv (st : AudioState) (f : String)
    (rid v l : Int) (h : audioInv st) :
    audioInv (Play_Sound st f rid v l).2 := by
  obtain ⟨hcount, hfresh⟩ := h
  unfold Play_Sound
  by_cases hav : (st.sound_enabled && st.sound_files f) = true
  · simp only [hav, if_true]
    by_cases hrid : (rid == (-1 : Int)) = true
    · simp only [hrid, if_true]
      constructor
      · intro rid' hrid'
        rw [List.countP_cons]
        have hne : ((-1 : Int) == rid') = false := by
          simpa using fun hx => hrid' hx.symm
        have heq : rid = -1 := by simpa using hrid
        simp only [heq, hne, if_false]
        simpa using hcount rid' hrid'
      · intro c hc
        rcases List.mem_cons.mp hc with hc1 | hc2
        · subst hc1; exact Nat.lt_succ_self st.nextHandle
        · exact Nat.lt_succ_of_lt (hfresh c hc2)
    · simp only [hrid, if_false]
      constructor
      · intro rid' hrid'
        rw [List.countP_cons]
        by_cases hsame : rid' = rid
        · subst hsame
          have hz :
              (st.sounds.filter (fun c => !(c.resource_id == rid'))).countP
                (fun c => c.resource_id == rid') = 0 := by
            rw [List.countP_eq_zero]
            intro a ha
            have := List.of_mem_filter ha
            simp only [Bool.not_eq_true'] at this
            simp [this]
          simp [hz]
        · have hne : (rid == rid') = false := by
            simpa using fun hx => hsame hx.symm
          simp only [hne, if_false]
          calc (st.sounds.filter (fun c => !(c.resource_id == rid))).countP
                (fun c => c.resource_id == rid') + 0
              ≤ st.sounds.countP (fun c => c.resource_id == rid') := by
                rw [Nat.add_zero]
                exact List.Sublist.countP_le _ (List.filter_sublist st.sounds)
            _ ≤ 1 := hcount rid' hrid'
      · intro c hc
        rcases List.mem_cons.mp hc with hc1 | hc2
        · subst hc1; exact Nat.lt_succ_self st.nextHandle
        · exact Nat.lt_succ_of_lt (hfresh c (List.mem_of_mem_filter hc2))
  · simp only [hav, if_false]
    exact ⟨hcount, hfresh⟩

theorem runSoundCalls_preserves_inv (calls : List SoundCall) :
    ∀ st : AudioState, audioInv st → audioInv (runSoundCalls st calls) := by
  induction calls with
  | nil => intro st h; simpa [runSoundCalls] using h
  | cons c rest ih =>
    intro st h
    have h1 := play_sound_preserves_inv st c.filename c.resid c.volume c.loops h
    simpa [runSoundCalls, List.foldl_cons] using ih _ h1

theorem play_sound_discards_same_id (st : AudioState) (f : String)
    (rid v l : Int) (hrid : rid ≠ -1)
    (hok : (Play_Sound st f rid v l).1 = true)
    (hfresh : ∀ c ∈ st.sounds, c.handle < st.nextHandle) :
    ∀ c ∈ st.sounds, c.resource_id = rid →
      c ∉ (Play_Sound st f rid v l).2.sounds := by
  intro c hc hcrid hmem
  unfold Play_Sound at hok hmem
  by_cases hav : (st.sound_enabled && st.sound_files f) = true
  · have hrid' : (rid == (-1 : Int)) = false := by simpa using hrid
    simp only [hav, if_true, hrid', if_false] at hmem
    rcases List.mem_cons.mp hmem with hc1 | hc2
    · have h2 : c.handle < st.nextHandle := hfresh c hc
      rw [hc1] at h2
      simp at h2
    · have := List.of_mem_filter hc2
      simp only [Bool.not_eq_true'] at this
      simp [hcrid] at this
  · simp [hav] at hok

/-! ## Claim theorems -/

/-- C1: for every Fire with a non-empty handler snapshot, the verdict's
`suppress_default` is true iff at least one invoked handler explicitly
returned the suppress value; handlers returning continue or raising a
script error (treated as continue) do not make it true. -/
theorem fire_suppress_default_iff (s : List HandlerResult) (hne : s ≠ []) :
    (Fire s).suppress_default = true ↔ HandlerResult.suppress ∈ s := by
  match s, hne with
  | h :: t, _ => cases h <;> simp [Fire, foldl_fireStep, fireStep]

/-- Witness for C1 at the spec's example [continue, suppress, continue]. -/
theorem fire_suppress_default_iff_witness :
    ([HandlerResult.cont, HandlerResult.suppress, HandlerResult.cont]
        ≠ ([] : List HandlerResult))
    ∧ (Fire [HandlerResult.cont, HandlerResult.suppress,
        HandlerResult.cont]).suppress_default = true := by
  refine ⟨by decide, ?_⟩
  exact (fire_suppress_default_iff
    [HandlerResult.cont, HandlerResult.suppress, HandlerResult.cont]
    (by decide)).mpr (by decide)

/-- C2: over every sequence of Play_Sound calls the at-most-one-channel-
per-non-sentinel-id invariant is preserved, and a successful Play_Sound
whose resource id matches a currently active channel discards that
channel: it is absent from the resulting channel list. -/
theorem play_sound_at_most_one_per_id (st : AudioState) (hinv : audioInv st)
    (calls : List SoundCall) :
    audioInv (runSoundCalls st calls)
    ∧ ∀ f v l rid, rid ≠ -1 → (Play_Sound st f rid v l).1 = true →
        ∀ c ∈ st.sounds, c.resource_id = rid →
          c ∉ (Play_Sound st f rid v l).2.sounds := by
  refine ⟨runSoundCalls_preserves_inv calls st hinv, ?_⟩
  intro f v l rid hrid hok c hc hcrid
  exact play_sound_discards_same_id st f rid v l hrid hok hinv.2 c hc hcrid

/-- Witness for C2 at the spec's example: playing "jump.ogg" twice with
resource id 1 keeps the invariant. -/
theorem play_sound_at_most_one_per_id_witness :
    audioInv initAudio
    ∧ audioInv (runSoundCalls initAudio
        [⟨"jump.ogg", -1, 0, 1⟩, ⟨"jump.ogg", -1, 0, 1⟩]) := by
  have h0 : audioInv initAudio := by
    constructor
    · intro rid hrid; simp [initAudio]
    · intro c hc; simp [initAudio] at hc
  exact ⟨h0, (play_sound_at_most_one_per_id initAudio h0
    [⟨"jump.ogg", -1, 0, 1⟩, ⟨"jump.ogg", -1, 0, 1⟩]).1⟩

/-- C3: a sentinel-id (-1) Play_Sound starts unconditionally without
stopping any existing channel, so two successive sentinel-id calls leave
two new independent active channels on top of the previous ones. -/
theorem play_sound_sentinel_no_preempt (st : AudioState) (a b : String)
    (va la vb lb : Int)
    (hen : st.sound_enabled = true) (ha : st.sound_files a = true)
    (hb : st.sound_files b = true) :
    (Play_Sound st a (-1) va la).1 = true
    ∧ (Play_Sound (Play_Sound st a (-1) va la).2 b (-1) vb lb).1 = true
    ∧ (Play_Sound (Play_Sound st a (-1) va la).2 b (-1) vb lb).2.sounds
        = ⟨b, -1, vb, lb, st.nextHandle + 1⟩
            :: ⟨a, -1, va, la, st.nextHandle⟩ :: st.sounds := by
  simp [Play_Sound, hen, ha, hb]

/-- Witness for C3 at the spec's example "a.ogg" then "b.ogg". -/
theorem play_sound_sentinel_no_preempt_witness :
    initAudio.sound_enabled = true
    ∧ (Play_Sound (Play_Sound initAudio ("a.ogg") (-1) (-1) 0).2
          ("b.ogg") (-1) (-1) 0).2.sounds
        = [⟨"b.ogg", -1, -1, 0, 1⟩, ⟨"a.ogg", -1, -1, 0, 0⟩] := by
  refine ⟨rfl, ?_⟩
  have h := play_sound_sentinel_no_preempt initAudio ("a.ogg") ("b.ogg")
    (-1) 0 (-1) 0 rfl rfl rfl
  simpa [initAudio] using h.2.2

/-- C4: Play_Music with force=false while a music channel is active
returns false and leaves the state (in particular the active music
channel) unchanged. -/
theorem play_music_noforce_noop (st : AudioState) (f : String)
    (l fd : Int) (m : MusicChannel) (hm : st.music = some m) :
    Play_Music st f l false fd = (false, st) := by
  simp [Play_Music, hm]

/-- Witness for C4 at the spec's example: town.ogg active, then
cave.ogg with force=false is refused and town.ogg stays. -/
theorem play_music_noforce_noop_witness :
    (Play_Music initAudio ("town.ogg") 0 true 0).2.music
        = some ⟨"town.ogg", 0, 0, 0⟩
    ∧ Play_Music (Play_Music initAudio ("town.ogg") 0 true 0).2
          ("cave.ogg") 0 false 0
        = (false, (Play_Music initAudio ("town.ogg") 0 true 0).2) := by
  refine ⟨rfl, ?_⟩
  exact play_music_noforce_noop _ ("cave.ogg") 0 0 ⟨"town.ogg", 0, 0, 0⟩ rfl

/-- C5: a successful Play_Music with force=true while a music channel is
active replaces it: the call succeeds, the new music becomes the single
active music channel, and the previously active channel is discarded
(the resulting channel differs from it). -/
theorem play_music_force_replaces (st : AudioState) (f : String)
    (l fd : Int) (m : MusicChannel)
    (hen : st.music_enabled = true) (hf : st.music_files f = true)
    (hm : st.music = some m) (hh : m.handle < st.nextHandle) :
    (Play_Music st f l true fd).1 = true
    ∧ (Play_Music st f l true fd).2.music = some ⟨f, l, fd, st.nextHandle⟩
    ∧ ∀ mc, (Play_Music st f l true fd).2.music = some mc → mc ≠ m := by
  refine ⟨by simp [Play_Music, hen, hf, hm], by simp [Play_Music, hen, hf, hm], ?_⟩
  intro mc hmc heq
  have h1 : (Play_Music st f l true fd).2.music
      = some (⟨f, l, fd, st.nextHandle⟩ : MusicChannel) := by
    simp [Play_Music, hen, hf, hm]
  rw [h1] at hmc
  injection hmc with hmc
  have : m.handle = st.nextHandle := by rw [← heq, ← hmc]
  omega

/-- Witness for C5 at the spec's example: town.ogg active, then cave.ogg
with force=true replaces it. -/
theorem play_music_force_replaces_witness :
    (Play_Music (Play_Music initAudio ("town.ogg") 0 true 0).2
        ("cave.ogg") 0 true 0).1 = true
    ∧ (Play_Music (Play_Music initAudio ("town.ogg") 0 true 0).2
          ("cave.ogg") 0 true 0).2.music = some ⟨"cave.ogg", 0, 0, 1⟩ := by
  have h := play_music_force_replaces
    (Play_Music initAudio ("town.ogg") 0 true 0).2
    ("cave.ogg") 0 0 ⟨"town.ogg", 0, 0, 0⟩ rfl rfl rfl (by decide)
  exact ⟨h.1, h.2.1⟩

/-- C6: every script-level call of AudioClass#initialize raises the
script-level instantiation error; no instance value is ever produced. -/
theorem initialize_always_raises (self : MRubyValue) :
    Initialize self = Except.error
      (ScriptError.notImplemented ("Cannot create instances of this class.")) :=
  rfl

/-- C7: omitting the optional arguments gives exactly the documented
defaults: play_sound volume=-1, loops=0, resid=-1 and play_music loops=0,
force=true, fadein_ms=0 — the same result as passing them explicitly. -/
theorem mrb_defaults_explicit (st : AudioState) (f : String) :
    mrb_Play_Sound st f none none none
        = mrb_Play_Sound st f (some (-1)) (some 0) (some (-1))
    ∧ mrb_Play_Music st f none none none
        = mrb_Play_Music st f (some 0) (some MRubyValue.true_) (some 0) :=
  ⟨rfl, rfl⟩

/-- C8: every event variant's Event_Name is non-empty and fixed per
variant (it is a function of the variant alone), and the jump event's
Event_Name is "jump". -/
theorem event_name_stable (v : EventVariant) :
    0 < (Event_Name v).length ∧ Event_Name EventVariant.jump = "jump" := by
  cases v <;> exact ⟨by decide, rfl⟩

/-- C9: constructing a cLevel_Save_Event from a pointer and then calling
Get_Save_Data returns exactly that pointer, and neither construction nor
destruction of the event modifies or frees the referenced save data. -/
theorem level_save_event_borrows (p : Nat) (heap : SaveHeap) :
    Get_Save_Data (mkLevelSaveEvent p heap).1 = p
    ∧ (mkLevelSaveEvent p heap).2 = heap
    ∧ destroyLevelSaveEvent (mkLevelSaveEvent p heap).1 heap = heap :=
  ⟨rfl, rfl, rfl⟩

/-- C10: play_music interprets force by mruby truthiness: mrb_test is
true exactly for values other than false/nil, and the call behaves
identically to passing the canonical boolean of that truthiness. -/
theorem play_music_force_truthiness (st : AudioState) (f : String)
    (l fd : Int) (v : MRubyValue) :
    (mrb_test v = true ↔ (v ≠ MRubyValue.false_ ∧ v ≠ MRubyValue.nil_))
    ∧ mrb_Play_Music st f (some l) (some v) (some fd)
        = mrb_Play_Music st f (some l)
            (some (if mrb_test v then MRubyValue.true_ else MRubyValue.false_))
            (some fd) := by
  constructor
  · cases v <;> simp [mrb_test]
  · cases hv : mrb_test v <;>
      simp only [mrb_Play_Music, Option.getD_some, hv] <;> rfl

end TSC
